import Mathlib

/-
Verification development for the plugin-todo repository.

Shallow embedding of the data/points/streak engine and the reminder
scheduler:
  - services/todoDataService.ts : calculatePoints, addUserPoints,
    getOrCreateStreak / updateStreak, resetDailyTodos
  - actions/completeTodo.ts : processDailyTaskCompletion,
    processOneOffTaskCompletion
  - services (reminder) : TodoReminderService.checkOverdueTasks
  - API route : PUT /api/todos/:id/complete

Timestamps are modelled as integers (milliseconds).  JavaScript
truthiness of optional values is modelled explicitly (jsOrInt, jsOrBool):
`x || d` on a number is d when x is absent or 0, on a boolean it is d
when x is absent or false.  Completion outcomes are strings, as at the
JS runtime (the TypeScript union type is erased), so out-of-range
outcome values can be expressed.
-/

/-- Metadata map of a todo: only the keys the engine reads or writes. -/
structure TodoMetadata where
  streak : Option Int := none
  lastReminderSent : Option Int := none
  completedToday : Option Bool := none
  lastCompletedAt : Option Int := none
  lastCompletedDate : Option Int := none
  completedAt : Option Int := none
  completedOnTime : Option Bool := none
  pointsAwarded : Option Int := none
  deriving Repr, DecidableEq

/-- A todo record (todosTable row together with its metadata). -/
structure TodoData where
  id : Nat := 0
  roomId : Option Nat := none
  entityId : Nat := 0
  name : String := ""
  ttype : String := "one-off"
  priority : Option Int := none
  isUrgent : Option Bool := none
  isCompleted : Option Bool := none
  dueDate : Option Int := none
  completedAt : Option Int := none
  metadata : TodoMetadata := {}
  deriving Repr, DecidableEq

/-- JS `x || d` for an optional number: d when x is absent or 0. -/
def jsOrInt (x : Option Int) (d : Int) : Int :=
  match x with
  | some v => if v = 0 then d else v
  | none => d

/-- JS `x || d` for an optional boolean: d when x is absent or false. -/
def jsOrBool (x : Option Bool) (d : Bool) : Bool :=
  match x with
  | some v => v || d
  | none => d

/-- TodoDataService.calculatePoints.  The completion status is a string,
as at the JS runtime; the TS switch has no default case, so any
unrecognized status leaves points at its initial value 0. -/
def calculatePoints (task : TodoData) (completionStatus : String) : Int :=
  let priority := jsOrInt task.priority 4
  let isUrgent := jsOrBool task.isUrgent false
  if completionStatus = "onTime" then
    -- points = (5 - priority) * 10; if (isUrgent) points += 10
    (5 - priority) * 10 + (if isUrgent then 10 else 0)
  else if completionStatus = "late" then
    5
  else if completionStatus = "daily" then
    10
  else if completionStatus = "streakBonus" then
    -- typeof task.metadata?.streak === 'number' ? task.metadata.streak : 0
    let streak := (task.metadata.streak).getD 0
    min (streak * 5) 50
  else
    0

/-- Streak record for a daily todo (dailyStreaksTable row, fixed
(todoId, entityId) pair). -/
structure StreakData where
  currentStreak : Int
  longestStreak : Int
  deriving Repr, DecidableEq

/-- The write of TodoDataService.updateStreak on the streak record:
on increment, currentStreak + 1 and longestStreak raised to the max;
otherwise currentStreak reset to 0 with longestStreak untouched. -/
def updateStreakRec (streak : StreakData) (increment : Bool) : StreakData :=
  if increment then
    let newStreak := streak.currentStreak + 1
    { streak with currentStreak := newStreak,
                  longestStreak := max newStreak streak.longestStreak }
  else
    { streak with currentStreak := 0 }

/-- A sequence of updateStreak calls starting from the record created
lazily by getOrCreateStreak (currentStreak 0, longestStreak 0). -/
def runStreakOps (ops : List Bool) : StreakData :=
  ops.foldl updateStreakRec { currentStreak := 0, longestStreak := 0 }

/-- Points account (userPointsTable row, fixed (entity, world, room)). -/
structure PointsAccount where
  currentPoints : Int
  totalPointsEarned : Int
  deriving Repr, DecidableEq

/-- One account of the points ledger plus its pointHistoryTable deltas. -/
structure LedgerState where
  account : Option PointsAccount
  history : List Int
  deriving Repr, DecidableEq

/-- TodoDataService.addUserPoints for one (entity, world, room) account:
creates the account with currentPoints = totalPointsEarned = pointsToAdd
when absent, otherwise adds pointsToAdd to both fields; always appends
the delta to the point history. -/
def addUserPoints (s : LedgerState) (pointsToAdd : Int) : LedgerState :=
  match s.account with
  | none =>
      { account := some { currentPoints := pointsToAdd, totalPointsEarned := pointsToAdd },
        history := s.history ++ [pointsToAdd] }
  | some userPoints =>
      { account := some { currentPoints := userPoints.currentPoints + pointsToAdd,
                          totalPointsEarned := userPoints.totalPointsEarned + pointsToAdd },
        history := s.history ++ [pointsToAdd] }

/-- A sequence of addUserPoints calls on an initially absent account. -/
def runAddUserPoints (deltas : List Int) : LedgerState :=
  deltas.foldl addUserPoints { account := none, history := [] }

/-- Balance of the account, 0 when the account does not exist yet. -/
def currentOf (s : LedgerState) : Int :=
  (s.account.map PointsAccount.currentPoints).getD 0

/-- Lifetime-earned total, 0 when the account does not exist yet. -/
def totalOf (s : LedgerState) : Int :=
  (s.account.map PointsAccount.totalPointsEarned).getD 0

/-- Sum of the strictly positive deltas of a transaction list. -/
def positiveSum (l : List Int) : Int :=
  (l.filter (fun d => decide (0 < d))).sum

/-- State touched by a daily completion: the task, its streak record and
the owner's points account. -/
structure DailyState where
  task : TodoData
  streakRec : StreakData
  ledger : LedgerState
  deriving Repr, DecidableEq

/-- Result summary returned by processDailyTaskCompletion. -/
structure DailyCompletionResult where
  pointsAwarded : Int
  newStreak : Int
  deriving Repr, DecidableEq

/-- actions/completeTodo.ts processDailyTaskCompletion: increment the
streak, award base daily points plus (when the new streak exceeds 1) the
streak bonus computed from the task's metadata snapshot, mark the task
completed with the metadata snapshot, and append the ledger transaction. -/
def processDailyTaskCompletion (now : Int) (st : DailyState) : DailyState × DailyCompletionResult :=
  let streakData := updateStreakRec st.streakRec true
  let newStreak := streakData.currentStreak
  let basePoints := calculatePoints st.task "daily"
  let streakPoints := if newStreak > 1 then calculatePoints st.task "streakBonus" else 0
  let totalPoints := basePoints + streakPoints
  let task' := { st.task with
    isCompleted := some true,
    completedAt := some now,
    metadata := { st.task.metadata with
      streak := some newStreak,
      lastCompletedAt := some now,
      completedToday := some true,
      pointsAwarded := some totalPoints } }
  let ledger' := addUserPoints st.ledger totalPoints
  ({ task := task', streakRec := streakData, ledger := ledger' },
   { pointsAwarded := totalPoints, newStreak := newStreak })

/-- TodoDataService.resetDailyTodos restricted to one task: for a daily
task currently marked completed, clears isCompleted and completedAt;
metadata and the streak record are untouched. -/
def resetDailyTask (st : DailyState) : DailyState :=
  if st.task.ttype = "daily" && jsOrBool st.task.isCompleted false then
    { st with task := { st.task with isCompleted := some false, completedAt := none } }
  else
    st

/-- Result summary returned by processOneOffTaskCompletion. -/
structure OneOffCompletionResult where
  pointsAwarded : Int
  completedOnTime : Bool
  deriving Repr, DecidableEq

/-- actions/completeTodo.ts processOneOffTaskCompletion: on-time iff no
due date or now is not past it, points from calculatePoints on the
chosen outcome, task marked completed with the outcome in metadata, and
the ledger transaction appended. -/
def processOneOffTaskCompletion (now : Int) (task : TodoData) (ledger : LedgerState) :
    TodoData × LedgerState × OneOffCompletionResult :=
  let completedOnTime : Bool :=
    match task.dueDate with
    | some d => decide (now ≤ d)
    | none => true
  let pointStatus := if completedOnTime then "onTime" else "late"
  let points := calculatePoints task pointStatus
  let task' := { task with
    isCompleted := some true,
    completedAt := some now,
    metadata := { task.metadata with
      completedAt := some now,
      completedOnTime := some completedOnTime,
      pointsAwarded := some points } }
  let ledger' := addUserPoints ledger points
  (task', ledger', { pointsAwarded := points, completedOnTime := completedOnTime })

/-- TodoReminderService.REMINDER_COOLDOWN (remind once per day). -/
def REMINDER_COOLDOWN : Int := 24 * 60 * 60 * 1000

/-- The loop guard in checkOverdueTasks:
`lastReminder && now - new Date(lastReminder).getTime() < REMINDER_COOLDOWN`.
An absent lastReminderSent is falsy, so the guard is false. -/
def withinCooldown (now : Int) (todo : TodoData) : Bool :=
  match todo.metadata.lastReminderSent with
  | some lastReminder => decide (now - lastReminder < REMINDER_COOLDOWN)
  | none => false

/-- TodoReminderService.sendReminder emits a message only when the todo
has both a room and a due date (otherwise it returns early). -/
def sendReminderEmits (todo : TodoData) : Bool :=
  todo.roomId.isSome && todo.dueDate.isSome

/-- The metadata write issued after sending a reminder:
lastReminderSent set to the current time, the rest spread unchanged. -/
def markReminded (now : Int) (todo : TodoData) : TodoData :=
  { todo with metadata := { todo.metadata with lastReminderSent := some now } }

/-- The loop body of TodoReminderService.checkOverdueTasks over the
overdue list.  For each todo: skip while within the cooldown, otherwise
send the reminder and write lastReminderSent.  The fail argument injects
a thrown error while sending or updating a given todo; the single
try/catch wraps the whole loop, so a throw ends the scan (the error is
caught and logged outside the loop).  The result lists, in order, the
(reminder-emitted, updated-todo) actions the tick performed. -/
def scanProcessed (now : Int) (fail : Nat → Bool) : List TodoData → List (Bool × TodoData)
  | [] => []
  | todo :: rest =>
    if withinCooldown now todo then
      scanProcessed now fail rest
    else if fail todo.id then
      []
    else
      (sendReminderEmits todo, markReminded now todo) :: scanProcessed now fail rest

/-- Store state visible to the complete-todo API route: the todo table,
the streak table keyed by todoId, and the caller's points account. -/
structure ApiStore where
  todos : List TodoData
  streaks : List (Nat × StreakData)
  ledger : LedgerState
  deriving Repr, DecidableEq

/-- An HTTP response of the route, status code plus body text. -/
structure ApiResponse where
  status : Nat
  body : String
  deriving Repr, DecidableEq

/-- TodoDataService.getOrCreateStreak over the streak table. -/
def getOrCreateStreakIn (streaks : List (Nat × StreakData)) (todoId : Nat) :
    StreakData × List (Nat × StreakData) :=
  match (streaks.find? (fun p => p.1 == todoId)).map Prod.snd with
  | some streak => (streak, streaks)
  | none =>
      let fresh : StreakData := { currentStreak := 0, longestStreak := 0 }
      (fresh, streaks ++ [(todoId, fresh)])

/-- TodoDataService.updateStreak over the streak table. -/
def updateStreakIn (streaks : List (Nat × StreakData)) (todoId : Nat) (increment : Bool) :
    StreakData × List (Nat × StreakData) :=
  let (streak, streaks1) := getOrCreateStreakIn streaks todoId
  let streak' := updateStreakRec streak increment
  (streak', streaks1.map (fun p => if p.1 == todoId then (p.1, streak') else p))

/-- TodoDataService.updateTodo restricted to replacing one row. -/
def updateTodoIn (todos : List TodoData) (task : TodoData) : List TodoData :=
  todos.map (fun u => if u.id == task.id then task else u)

/-- The PUT /api/todos/:id/complete route handler.  haveCtx models the
presence of entityId and worldId in the request body.  Guards in source
order: missing task id -> 400, unknown id -> 404, already completed ->
400 before any write.  Otherwise the task is completed: with context,
daily tasks update the streak and earn base + conditional streak-bonus
points, one-off tasks with a due date earn late or on-time points,
aspirational tasks earn a flat 50 (points are added only when positive,
always with a history entry); without context only count-only daily
bookkeeping happens and no points are awarded. -/
def completeTodoHandler (now : Int) (taskId : Option Nat) (haveCtx : Bool) (s : ApiStore) :
    ApiResponse × ApiStore :=
  match taskId with
  | none => ({ status := 400, body := "Missing taskId" }, s)
  | some tid =>
    match s.todos.find? (fun t => t.id == tid) with
    | none => ({ status := 404, body := "Task not found" }, s)
    | some task =>
      if jsOrBool task.isCompleted false then
        ({ status := 400, body := "Task already completed" }, s)
      else
        let md0 := { task.metadata with completedAt := some now, pointsAwarded := some 0 }
        if haveCtx && task.roomId.isSome then
          if task.ttype = "daily" then
            let (streakData, streaks') := updateStreakIn s.streaks task.id true
            let newStreak := streakData.currentStreak
            let md1 := { md0 with completedToday := some true,
                                  lastCompletedDate := some now,
                                  streak := some newStreak }
            let basePoints := calculatePoints task "daily"
            let streakBonusPoints :=
              if newStreak > 1 then calculatePoints task "streakBonus" else 0
            let totalPoints := basePoints + streakBonusPoints
            let md2 := { md1 with pointsAwarded := some totalPoints }
            let ledger' := if totalPoints > 0 then addUserPoints s.ledger totalPoints else s.ledger
            let task' := { task with isCompleted := some true, completedAt := some now, metadata := md2 }
            ({ status := 200, body := "Task completed" },
             { todos := updateTodoIn s.todos task', streaks := streaks', ledger := ledger' })
          else if task.ttype = "one-off" && task.dueDate.isSome then
            let late := decide ((task.dueDate.getD 0) < now)
            let completionStatus := if late then "late" else "onTime"
            let pointsToAdd := calculatePoints task completionStatus
            let md2 := { md0 with pointsAwarded := some pointsToAdd }
            let ledger' := if pointsToAdd > 0 then addUserPoints s.ledger pointsToAdd else s.ledger
            let task' := { task with isCompleted := some true, completedAt := some now, metadata := md2 }
            ({ status := 200, body := "Task completed" },
             { todos := updateTodoIn s.todos task', streaks := s.streaks, ledger := ledger' })
          else if task.ttype = "aspirational" then
            let pointsToAdd : Int := 50
            let md2 := { md0 with pointsAwarded := some pointsToAdd }
            let ledger' := addUserPoints s.ledger pointsToAdd
            let task' := { task with isCompleted := some true, completedAt := some now, metadata := md2 }
            ({ status := 200, body := "Task completed" },
             { todos := updateTodoIn s.todos task', streaks := s.streaks, ledger := ledger' })
          else
            let task' := { task with isCompleted := some true, completedAt := some now, metadata := md0 }
            ({ status := 200, body := "Task completed" },
             { todos := updateTodoIn s.todos task', streaks := s.streaks, ledger := s.ledger })
        else
          let md1 :=
            if task.ttype = "daily" then
              { md0 with completedToday := some true,
                         lastCompletedDate := some now,
                         streak := some ((md0.streak).getD 0 + 1) }
            else md0
          let task' := { task with isCompleted := some true, completedAt := some now, metadata := md1 }
          ({ status := 200, body := "Task completed" },
           { todos := updateTodoIn s.todos task', streaks := s.streaks, ledger := s.ledger })

/-- A freshly created daily task: no priority, empty metadata. -/
def freshDailyTask : TodoData := { id := 1, ttype := "daily" }

/-- Fresh daily state: the task together with the zero streak record
created at task creation and an empty points ledger. -/
def freshDailyState : DailyState :=
  { task := freshDailyTask,
    streakRec := { currentStreak := 0, longestStreak := 0 },
    ledger := { account := none, history := [] } }

/-- Day 1: complete the fresh daily task. -/
def c1Day1 : DailyState × DailyCompletionResult :=
  processDailyTaskCompletion 1 freshDailyState

/-- Day 2: daily reset, then complete again. -/
def c1Day2 : DailyState × DailyCompletionResult :=
  processDailyTaskCompletion 2 (resetDailyTask c1Day1.1)

/-- Day 3: daily reset, then complete again. -/
def c1Day3 : DailyState × DailyCompletionResult :=
  processDailyTaskCompletion 3 (resetDailyTask c1Day2.1)

/-- A sample task for evaluating calculatePoints at an out-of-range
completion outcome. -/
def c3SampleTask : TodoData := { id := 2, ttype := "one-off", priority := some 1, isUrgent := some true }

/-- A one-off task, priority 1, urgent, due at time 50. -/
def c5LateTask : TodoData :=
  { id := 6, ttype := "one-off", priority := some 1, isUrgent := some true, dueDate := some 50 }

/-- An empty points ledger. -/
def emptyLedger : LedgerState := { account := none, history := [] }

/-- An overdue todo whose last reminder was sent 1 ms before the scan. -/
def c6CooldownTodo : TodoData :=
  { id := 7, ttype := "one-off", roomId := some 1, dueDate := some 0,
    metadata := { lastReminderSent := some 999 } }

/-- Failure injection that never throws. -/
def noFail : Nat → Bool := fun _ => false

/-- First overdue todo of the C7 scan (its send/update throws). -/
def c7TodoA : TodoData := { id := 1, ttype := "one-off", roomId := some 5, dueDate := some 0 }

/-- Second overdue todo of the C7 scan (never reached). -/
def c7TodoB : TodoData := { id := 2, ttype := "one-off", roomId := some 5, dueDate := some 0 }

/-- Failure injection throwing exactly on todo id 1. -/
def failOnFirst : Nat → Bool := fun i => i == 1

/-- A task already marked completed. -/
def c8DoneTask : TodoData := { id := 9, ttype := "one-off", isCompleted := some true }

/-- A store holding just the completed task. -/
def c8Store : ApiStore := { todos := [c8DoneTask], streaks := [], ledger := emptyLedger }

lemma calculatePoints_onTime (t : TodoData) :
    calculatePoints t "onTime" =
      (5 - jsOrInt t.priority 4) * 10 + (if jsOrBool t.isUrgent false then 10 else 0) := rfl

lemma calculatePoints_late (t : TodoData) : calculatePoints t "late" = 5 := rfl

lemma calculatePoints_daily (t : TodoData) : calculatePoints t "daily" = 10 := rfl

lemma calculatePoints_streakBonus (t : TodoData) :
    calculatePoints t "streakBonus" = min ((t.metadata.streak).getD 0 * 5) 50 := rfl

/-- C1: starting from a freshly created daily task with no priority and
no prior completions, the daily completion flow on three consecutive
days (with the daily reset clearing the completed flag in between and no
other completions) yields streaks 1, 2, 3 and awards 10, 15, 20 points,
the ledger recording exactly those three transactions. -/
theorem c1_daily_completion_three_days :
    c1Day1.2 = { pointsAwarded := 10, newStreak := 1 } ∧
    c1Day2.2 = { pointsAwarded := 15, newStreak := 2 } ∧
    c1Day3.2 = { pointsAwarded := 20, newStreak := 3 } ∧
    c1Day3.1.ledger.history = [10, 15, 20] := by decide

/-- C3: the code does not fail fast on an invalid outcome — the switch
in calculatePoints has no default case, so an outcome outside
onTime/late/daily/streakBonus silently yields 0 points instead of
signalling an invalid-outcome error. -/
theorem c3_invalid_outcome_returns_zero :
    calculatePoints c3SampleTask "invalidOutcome" = 0 ∧
    calculatePoints c3SampleTask "ontime" = 0 := by decide

/-- C4: for a task whose priority is unset or in 1..4, onTime points are
(5 - priority) * 10 with priority defaulting to 4 when unset, plus 10
when the task is urgent; consequently the result is monotonically
non-increasing in priority and strictly higher when isUrgent is true,
all else equal. -/
theorem c4_onTime_points_spec (t : TodoData) :
    (t.priority = none →
      calculatePoints t "onTime" = 10 + (if jsOrBool t.isUrgent false then 10 else 0)) ∧
    (∀ p : Int, t.priority = some p → 1 ≤ p → p ≤ 4 →
      calculatePoints t "onTime" = (5 - p) * 10 + (if jsOrBool t.isUrgent false then 10 else 0)) ∧
    (∀ p q : Int, 1 ≤ p → p ≤ q → q ≤ 4 →
      calculatePoints { t with priority := some q } "onTime" ≤
        calculatePoints { t with priority := some p } "onTime") ∧
    (calculatePoints { t with isUrgent := some false } "onTime" <
      calculatePoints { t with isUrgent := some true } "onTime") := by
  refine ⟨?_, ?_, ?_, ?_⟩
  · intro h
    rw [calculatePoints_onTime, h]
    norm_num [jsOrInt]
  · intro p hp h1 h4
    rw [calculatePoints_onTime, hp]
    simp [jsOrInt, show p ≠ 0 by omega]
  · intro p q h1 hpq h4
    rw [calculatePoints_onTime, calculatePoints_onTime]
    simp only [jsOrInt, show p ≠ 0 by omega, show q ≠ 0 by omega, if_false]
    cases jsOrBool t.isUrgent false <;> simp <;> omega
  · rw [calculatePoints_onTime, calculatePoints_onTime]
    simp [jsOrBool]

/-- Witness for C4 at a concrete task: priority 2, urgent, scores 40. -/
theorem c4_onTime_points_spec_witness :
    calculatePoints { id := 3, ttype := "one-off", priority := some 2, isUrgent := some true } "onTime" = 40 := by
  have h := (c4_onTime_points_spec
    { id := 3, ttype := "one-off", priority := some 2, isUrgent := some true }).2.1
    2 rfl (by decide) (by decide)
  rw [h]
  decide

/-- C10: calculatePoints applies the priority-4 default whenever the
priority is falsy, so a task with priority 0 scores (5 - 4) * 10 = 10
onTime (plus 10 when urgent), not (5 - 0) * 10 = 50. -/
theorem c10_priority_zero_default (t : TodoData) (h : t.priority = some 0) :
    calculatePoints t "onTime" = (if jsOrBool t.isUrgent false then 20 else 10) ∧
    calculatePoints t "onTime" ≠ 50 := by
  rw [calculatePoints_onTime, h]
  simp only [jsOrInt]
  cases jsOrBool t.isUrgent false <;> simp

/-- Witness for C10: a non-urgent priority-0 task scores 10, not 50. -/
theorem c10_priority_zero_default_witness :
    calculatePoints { id := 4, priority := some 0 } "onTime" = 10 ∧
    calculatePoints { id := 4, priority := some 0 } "onTime" ≠ 50 := by
  have h := c10_priority_zero_default { id := 4, priority := some 0 } rfl
  exact ⟨by rw [h.1]; decide, h.2⟩

lemma currentOf_addUserPoints (s : LedgerState) (d : Int) :
    currentOf (addUserPoints s d) = currentOf s + d := by
  cases h : s.account <;> simp [addUserPoints, currentOf, h]

lemma totalOf_addUserPoints (s : LedgerState) (d : Int) :
    totalOf (addUserPoints s d) = totalOf s + d := by
  cases h : s.account <;> simp [addUserPoints, totalOf, h]

lemma history_addUserPoints (s : LedgerState) (d : Int) :
    (addUserPoints s d).history = s.history ++ [d] := by
  cases h : s.account <;> simp [addUserPoints, h]

lemma foldl_addUserPoints (deltas : List Int) :
    ∀ s : LedgerState,
      currentOf (deltas.foldl addUserPoints s) = currentOf s + deltas.sum ∧
      totalOf (deltas.foldl addUserPoints s) = totalOf s + deltas.sum ∧
      (deltas.foldl addUserPoints s).history = s.history ++ deltas := by
  induction deltas with
  | nil => intro s; simp
  | cons d rest ih =>
      intro s
      have h := ih (addUserPoints s d)
      simp only [List.foldl_cons, List.sum_cons]
      refine ⟨?_, ?_, ?_⟩
      · rw [h.1, currentOf_addUserPoints]; ring
      · rw [h.2.1, totalOf_addUserPoints]; ring
      · rw [h.2.2, history_addUserPoints]; simp

lemma sum_eq_positiveSum (l : List Int) (h : ∀ d ∈ l, 0 ≤ d) : l.sum = positiveSum l := by
  induction l with
  | nil => simp [positiveSum]
  | cons a t ih =>
      have ha : 0 ≤ a := h a (by simp)
      have ht := ih (fun d hd => h d (by simp [hd]))
      by_cases hpos : 0 < a
      · simp only [positiveSum, List.filter_cons, decide_eq_true hpos, List.sum_cons]
        rw [ht]; rfl
      · have ha0 : a = 0 := by omega
        simp only [positiveSum, List.filter_cons, decide_eq_false hpos, List.sum_cons]
        rw [ht, ha0]; simp [positiveSum]

/-- C2 counterexample: after addUserPoints deltas 10 then -5, the
recorded transactions are exactly those deltas, yet totalPointsEarned is
5 — not the sum of the positive deltas (10) — and it decreased from its
value after the first call, so it is not monotonically non-decreasing. -/
theorem c2_counterexample_negative_delta :
    (runAddUserPoints [10, -5]).history = [10, -5] ∧
    totalOf (runAddUserPoints [10, -5]) = 5 ∧
    positiveSum [10, -5] = 10 ∧
    totalOf (runAddUserPoints [10, -5]) < totalOf (runAddUserPoints [10]) := by decide

/-- C2 amended: for every account reachable by addUserPoints calls,
currentPoints equals the sum of all recorded transaction deltas, as
claimed; but totalPointsEarned also equals the sum of ALL deltas (the
code adds every delta to it, not only positive ones).  It therefore
coincides with the sum of the positive deltas and is non-decreasing only
when every delta is non-negative — which holds for every call site in
this repository. -/
theorem c2_points_ledger_amended (deltas : List Int) :
    currentOf (runAddUserPoints deltas) = deltas.sum ∧
    totalOf (runAddUserPoints deltas) = deltas.sum ∧
    (runAddUserPoints deltas).history = deltas ∧
    ((∀ d ∈ deltas, 0 ≤ d) → totalOf (runAddUserPoints deltas) = positiveSum deltas) ∧
    (∀ d : Int, 0 ≤ d →
      totalOf (runAddUserPoints deltas) ≤ totalOf (runAddUserPoints (deltas ++ [d]))) := by
  have h := foldl_addUserPoints deltas { account := none, history := [] }
  have hc : currentOf (runAddUserPoints deltas) = deltas.sum := by
    have := h.1; simpa [runAddUserPoints, currentOf] using this
  have htot : totalOf (runAddUserPoints deltas) = deltas.sum := by
    have := h.2.1; simpa [runAddUserPoints, totalOf] using this
  have hh : (runAddUserPoints deltas).history = deltas := by
    have := h.2.2; simpa [runAddUserPoints] using this
  refine ⟨hc, htot, hh, ?_, ?_⟩
  · intro hall
    rw [htot, sum_eq_positiveSum deltas hall]
  · intro d hd
    have happ : runAddUserPoints (deltas ++ [d]) = addUserPoints (runAddUserPoints deltas) d := by
      simp [runAddUserPoints, List.foldl_append]
    rw [happ, totalOf_addUserPoints]
    omega

/-- Witness for C2 amended at deltas 3, 0, 7 and appended delta 2. -/
theorem c2_points_ledger_amended_witness :
    totalOf (runAddUserPoints [3, 0, 7]) = positiveSum [3, 0, 7] ∧
    totalOf (runAddUserPoints [3, 0, 7]) ≤ totalOf (runAddUserPoints ([3, 0, 7] ++ [2])) := by
  have h := c2_points_ledger_amended [3, 0, 7]
  exact ⟨h.2.2.2.1 (by decide), h.2.2.2.2 2 (by decide)⟩

lemma streak_foldl_inv (ops : List Bool) :
    ∀ s : StreakData, 0 ≤ s.currentStreak → s.currentStreak ≤ s.longestStreak →
      0 ≤ (ops.foldl updateStreakRec s).currentStreak ∧
      (ops.foldl updateStreakRec s).currentStreak ≤ (ops.foldl updateStreakRec s).longestStreak := by
  induction ops with
  | nil => intro s h1 h2; exact ⟨h1, h2⟩
  | cons b rest ih =>
      intro s h1 h2
      refine ih (updateStreakRec s b) ?_ ?_ <;>
        cases b <;> simp [updateStreakRec] <;> omega

/-- C5: completing a one-off task whose due date is strictly in the past
yields outcome late and exactly 5 points, recorded as the ledger delta,
regardless of priority and urgency; a future or absent due date yields
outcome onTime. -/
theorem c5_oneoff_due_date_outcome (now : Int) (task : TodoData) (ledger : LedgerState) :
    (∀ d : Int, task.dueDate = some d → d < now →
      (processOneOffTaskCompletion now task ledger).2.2.completedOnTime = false ∧
      (processOneOffTaskCompletion now task ledger).2.2.pointsAwarded = 5 ∧
      (processOneOffTaskCompletion now task ledger).2.1.history = ledger.history ++ [5]) ∧
    ((task.dueDate = none ∨ ∃ d : Int, task.dueDate = some d ∧ now < d) →
      (processOneOffTaskCompletion now task ledger).2.2.completedOnTime = true) := by
  constructor
  · intro d hd hlt
    have hn : ¬ (now ≤ d) := by omega
    simp [processOneOffTaskCompletion, hd, hn, calculatePoints_late, history_addUserPoints]
  · rintro (hd | ⟨d, hd, hlt⟩)
    · simp [processOneOffTaskCompletion, hd]
    · simp [processOneOffTaskCompletion, hd]
      omega

/-- Witness for C5: completing the urgent priority-1 task at time 100
(past its due time 50) is late and awards exactly 5 points. -/
theorem c5_oneoff_due_date_outcome_witness :
    (processOneOffTaskCompletion 100 c5LateTask emptyLedger).2.2.completedOnTime = false ∧
    (processOneOffTaskCompletion 100 c5LateTask emptyLedger).2.2.pointsAwarded = 5 := by
  have h := (c5_oneoff_due_date_outcome 100 c5LateTask emptyLedger).1 50 rfl (by decide)
  exact ⟨h.1, h.2.1⟩

/-- C6: a todo whose lastReminderSent is present and less than the
24-hour cooldown before the scan time contributes nothing to the tick:
the tick's actions with the todo in the overdue list are exactly the
actions without it — no reminder emitted for it and no metadata write. -/
theorem c6_reminder_cooldown_skip (now : Int) (fail : Nat → Bool) (pre post : List TodoData)
    (todo : TodoData) (t : Int)
    (h1 : todo.metadata.lastReminderSent = some t)
    (h2 : now - t < REMINDER_COOLDOWN) :
    scanProcessed now fail (pre ++ todo :: post) = scanProcessed now fail (pre ++ post) := by
  have hw : withinCooldown now todo = true := by
    simp [withinCooldown, h1, h2]
  induction pre with
  | nil => simp [scanProcessed, hw]
  | cons a rest ih =>
      simp only [List.cons_append, scanProcessed, List.append_eq]
      rw [ih]

/-- Witness for C6: a tick at time 1000 over just that todo performs no
action at all. -/
theorem c6_reminder_cooldown_skip_witness :
    scanProcessed 1000 noFail ([] ++ c6CooldownTodo :: []) = scanProcessed 1000 noFail ([] ++ []) :=
  c6_reminder_cooldown_skip 1000 noFail [] [] c6CooldownTodo 999 rfl (by decide)

/-- C7 counterexample: both todos are overdue and outside any cooldown,
the error is raised only for the first, yet the scan performs no action
at all — in particular the second todo receives no reminder in that
tick, because the single try/catch wraps the whole loop. -/
theorem c7_counterexample_scan_abort :
    withinCooldown 1000 c7TodoB = false ∧
    scanProcessed 1000 failOnFirst [c7TodoA, c7TodoB] = [] := by decide

/-- C7 amended: an error raised while sending or updating one overdue
task is caught (and logged) at the scan level, so the tick terminates
normally and later ticks still run; but it aborts the remainder of that
same scan — every todo after the failing one goes unprocessed — while a
scan with no failures processes exactly the todos outside cooldown. -/
theorem c7_scan_error_isolation_amended (now : Int) (fail : Nat → Bool) :
    (∀ (todo : TodoData) (rest : List TodoData),
      withinCooldown now todo = false → fail todo.id = true →
      scanProcessed now fail (todo :: rest) = []) ∧
    (∀ todos : List TodoData, (∀ u ∈ todos, fail u.id = false) →
      scanProcessed now fail todos =
        (todos.filter (fun u => !withinCooldown now u)).map
          (fun u => (sendReminderEmits u, markReminded now u))) := by
  constructor
  · intro todo rest h hf
    simp [scanProcessed, h, hf]
  · intro todos hfail
    induction todos with
    | nil => simp [scanProcessed]
    | cons u rest ih =>
        have hu : fail u.id = false := hfail u (by simp)
        have hr := ih (fun v hv => hfail v (by simp [hv]))
        cases hw : withinCooldown now u <;> simp [scanProcessed, hw, hu, hr]

/-- Witness for C7 amended: the aborted two-todo scan performs nothing,
and a failure-free scan over the second todo alone processes it. -/
theorem c7_scan_error_isolation_amended_witness :
    scanProcessed 1000 failOnFirst (c7TodoA :: [c7TodoB]) = [] ∧
    scanProcessed 1000 noFail [c7TodoB] =
      ([c7TodoB].filter (fun u => !withinCooldown 1000 u)).map
        (fun u => (sendReminderEmits u, markReminded 1000 u)) :=
  ⟨(c7_scan_error_isolation_amended 1000 failOnFirst).1 c7TodoA [c7TodoB] (by decide) (by decide),
   (c7_scan_error_isolation_amended 1000 noFail).2 [c7TodoB] (by decide)⟩

/-- C8: invoking the complete endpoint on a task already marked
completed answers 400 "Task already completed" and returns the store
unchanged — no points transaction recorded, no task state mutated. -/
theorem c8_already_completed_conflict (now : Int) (tid : Nat) (haveCtx : Bool) (s : ApiStore)
    (task : TodoData)
    (hfind : s.todos.find? (fun t => t.id == tid) = some task)
    (hdone : task.isCompleted = some true) :
    completeTodoHandler now (some tid) haveCtx s =
      ({ status := 400, body := "Task already completed" }, s) := by
  simp [completeTodoHandler, hfind, hdone, jsOrBool]

/-- Witness for C8: completing task 9 again yields 400 and the exact
same store. -/
theorem c8_already_completed_conflict_witness :
    completeTodoHandler 5 (some 9) true c8Store =
      ({ status := 400, body := "Task already completed" }, c8Store) :=
  c8_already_completed_conflict 5 9 true c8Store c8DoneTask (by decide) rfl

/-- C9: every streak record reachable from lazy creation (0, 0) by any
sequence of updateStreak calls satisfies 0 <= currentStreak and
longestStreak >= currentStreak; a failure/reset sets currentStreak to 0
and leaves longestStreak untouched. -/
theorem c9_streak_invariant :
    (∀ ops : List Bool,
      0 ≤ (runStreakOps ops).currentStreak ∧
      (runStreakOps ops).currentStreak ≤ (runStreakOps ops).longestStreak) ∧
    (∀ s : StreakData,
      (updateStreakRec s false).currentStreak = 0 ∧
      (updateStreakRec s false).longestStreak = s.longestStreak) := by
  constructor
  · intro ops
    exact streak_foldl_inv ops { currentStreak := 0, longestStreak := 0 } (by decide) (by decide)
  · intro s
    simp [updateStreakRec]
